import Mathlib

/-!
Verification of the gesture-classification and debouncing core of the
hand-gesture slide controller (gesture_final_code.py).

The per-frame logic tree (lines 174-235), the continuous-gesture tracker
state (zoom_base, swipe_anchor) and the PPTController debouncer
(_can_trigger, next_slide, prev_slide) are embedded shallowly: scalar
features (pixel distances and coordinates produced by get_dist and the
landmark reads) are rational numbers, the per-frame logic is a pure step
function on an explicit tracker state, and the controller is a pure
function of the current wall-clock time, an abstract backend and the
debounce state.  A step that would raise an uncaught ZeroDivisionError in
Python (hand_size divided by a zero zoom_base, line 196) is modelled as
Option.none.
-/

namespace GesturePPT

/-- ZOOM_SENSITIVITY = 0.05 (source line 19). -/
def ZOOM_SENSITIVITY : ℚ := 5/100

/-- SWIPE_THRESHOLD = 60 pixels (source line 20). -/
def SWIPE_THRESHOLD : ℚ := 60

/-- SWIPE_COOLDOWN = 1.5 seconds (source line 21). -/
def SWIPE_COOLDOWN : ℚ := 3/2

/-- Scalar features extracted from one frame (source lines 161-174):
pinch_dist = get_dist(lm[4], lm[8], w, h), hand_size = get_dist(lm[0],
lm[9], w, h), index_x = lm[8].x * w, and the four fingertip-above-joint
flags.  Distances returned by math.hypot are nonnegative, but the type
does not enforce that; theorems that need positivity assume it. -/
structure GeometryFeatures where
  pinch_dist : ℚ
  hand_size : ℚ
  index_x : ℚ
  index_up : Bool
  middle_up : Bool
  ring_up : Bool
  pinky_up : Bool
deriving DecidableEq

/-- fingers_count = sum([index_up, middle_up, ring_up, pinky_up]) (line 174). -/
def fingers_count (f : GeometryFeatures) : ℕ :=
  f.index_up.toNat + f.middle_up.toNat + f.ring_up.toNat + f.pinky_up.toNat

/-- The four mutually exclusive gesture categories of the logic tree. -/
inductive GestureCategory
  | FIST
  | PINCH
  | POINTER
  | NEUTRAL
deriving DecidableEq

/-- The branch conditions of the logic tree (source lines 180, 188, 208,
232), evaluated in source order with first match winning. -/
def classify (f : GeometryFeatures) : GestureCategory :=
  if fingers_count f = 0 then GestureCategory.FIST
  else if f.pinch_dist < 40 then GestureCategory.PINCH
  else if fingers_count f ≤ 2 ∧ f.index_up = true then GestureCategory.POINTER
  else GestureCategory.NEUTRAL

/-- The ordered decision list as the specification words it (section 4.2):
the count of up-fingers among index, middle, ring, pinky, then the pinch
threshold, then the pointer rule, else neutral. -/
def classifySpec (f : GeometryFeatures) : GestureCategory :=
  let upCount := [f.index_up, f.middle_up, f.ring_up, f.pinky_up].count true
  if upCount = 0 then GestureCategory.FIST
  else if f.pinch_dist < 40 then GestureCategory.PINCH
  else if upCount ≤ 2 ∧ f.index_up = true then GestureCategory.POINTER
  else GestureCategory.NEUTRAL

/-- Side effects the logic tree requests from the outside world on one
frame: a zoom adjustment (ppt.zoom), a slide trigger (ppt.next_slide or
ppt.prev_slide) or a zoom reset (ppt.reset_zoom, issued on every FIST
frame). -/
inductive Intent
  | zoomIn
  | zoomOut
  | swipeRight
  | swipeLeft
  | reset
deriving DecidableEq

/-- The cross-frame reference state (source lines 135-139; the dict also
carries status_text, which only the display overlay reads). -/
structure TrackerState where
  zoom_base : Option ℚ
  swipe_anchor : Option ℚ
deriving DecidableEq

/-- Initial state: both references absent (source lines 136-137). -/
def initState : TrackerState :=
  { zoom_base := Option.none, swipe_anchor := Option.none }

/-- One iteration of the per-frame logic tree (source lines 154-235).
Option.none as the frame means no hand was detected this frame, in which
case the whole block is skipped and the state is untouched.  The result
is Option.none exactly when Python would raise an uncaught
ZeroDivisionError: a PINCH frame with zoom_base = 0 (line 196). -/
def trackStep (st : TrackerState) (frame : Option GeometryFeatures) :
    Option (TrackerState × Option Intent) :=
  match frame with
  | Option.none => some (st, Option.none)
  | some f =>
    match classify f with
    | GestureCategory.FIST =>
        some ({ zoom_base := Option.none, swipe_anchor := Option.none },
          some Intent.reset)
    | GestureCategory.PINCH =>
        match st.zoom_base with
        | Option.none =>
            some ({ zoom_base := some f.hand_size, swipe_anchor := Option.none },
              Option.none)
        | some b =>
            if b = 0 then Option.none
            else if 1 + ZOOM_SENSITIVITY < f.hand_size / b then
              some ({ zoom_base := some (f.hand_size * (99/100)),
                      swipe_anchor := Option.none }, some Intent.zoomIn)
            else if f.hand_size / b < 1 - ZOOM_SENSITIVITY then
              some ({ zoom_base := some (f.hand_size * (101/100)),
                      swipe_anchor := Option.none }, some Intent.zoomOut)
            else
              some ({ zoom_base := some b, swipe_anchor := Option.none },
                Option.none)
    | GestureCategory.POINTER =>
        match st.swipe_anchor with
        | Option.none =>
            some ({ zoom_base := Option.none, swipe_anchor := some f.index_x },
              Option.none)
        | some a =>
            if SWIPE_THRESHOLD < f.index_x - a then
              some ({ zoom_base := Option.none, swipe_anchor := Option.none },
                some Intent.swipeRight)
            else if f.index_x - a < -SWIPE_THRESHOLD then
              some ({ zoom_base := Option.none, swipe_anchor := Option.none },
                some Intent.swipeLeft)
            else
              some ({ zoom_base := Option.none, swipe_anchor := some a },
                Option.none)
    | GestureCategory.NEUTRAL =>
        some ({ zoom_base := Option.none, swipe_anchor := Option.none },
          Option.none)

/-- States reachable from initState by frames whose features (when a hand
is present) satisfy P; a step must succeed (no ZeroDivisionError). -/
inductive ReachableW (P : GeometryFeatures → Prop) : TrackerState → Prop
  | init : ReachableW P initState
  | stepNone (st st' : TrackerState) (i : Option Intent) :
      ReachableW P st → trackStep st Option.none = some (st', i) →
      ReachableW P st'
  | stepSome (st st' : TrackerState) (f : GeometryFeatures) (i : Option Intent) :
      ReachableW P st → P f → trackStep st (some f) = some (st', i) →
      ReachableW P st'

/-- No restriction on the frames. -/
def anyFrame (_ : GeometryFeatures) : Prop := True

/-- Frames whose measured hand-size distance is positive. -/
def posFrame (f : GeometryFeatures) : Prop := 0 < f.hand_size

/-- States reachable by arbitrary frame sequences, no-hand frames included. -/
abbrev Reachable : TrackerState → Prop := ReachableW anyFrame

/-- The debounce state: PPTController.last_slide_time (source line 38). -/
structure PPTState where
  last_slide_time : ℚ
deriving DecidableEq

/-- Initial controller state: last_slide_time = 0 (source line 38). -/
def initPPT : PPTState := { last_slide_time := 0 }

/-- The external presentation backend as the controller observes it:
the slide count and current index it reports (with their failure
fallbacks 0 and 1 already folded in), whether the COM navigation calls
succeed, and whether pyautogui is importable (HAS_PYAUTOGUI). -/
structure Backend where
  slide_count : ℕ
  current_index : ℕ
  nav_ok : Bool
  has_pyautogui : Bool
deriving DecidableEq

/-- External calls the controller can issue while navigating. -/
inductive NavCall
  | advance
  | retreat
  | keyRight
  | keyLeft
deriving DecidableEq

/-- PPTController._can_trigger (source lines 45-50): permitted iff the
elapsed time strictly exceeds SWIPE_COOLDOWN; on permission
last_slide_time is updated to the current time. -/
def can_trigger (now : ℚ) (st : PPTState) : Bool × PPTState :=
  if SWIPE_COOLDOWN < now - st.last_slide_time then
    (true, { last_slide_time := now })
  else
    (false, st)

/-- PPTController.next_slide (source lines 70-87): cooldown gate first
(which already updates last_slide_time when it passes), then the
end-of-slides boundary check, then the navigation call with its
key-press fallback. -/
def next_slide (now : ℚ) (b : Backend) (st : PPTState) :
    String × PPTState × List NavCall :=
  let r := can_trigger now st
  if r.1 = false then ("Cooldown", r.2, [])
  else if b.slide_count ≤ b.current_index ∧ 0 < b.slide_count then
    ("End of Slides", r.2, [])
  else if b.nav_ok then ("Next Slide >", r.2, [NavCall.advance])
  else ("Key: Right", r.2, if b.has_pyautogui then [NavCall.keyRight] else [])

/-- PPTController.prev_slide (source lines 89-104): cooldown gate, then
the start-of-slides boundary check, then the navigation call with its
key-press fallback. -/
def prev_slide (now : ℚ) (b : Backend) (st : PPTState) :
    String × PPTState × List NavCall :=
  let r := can_trigger now st
  if r.1 = false then ("Cooldown", r.2, [])
  else if b.current_index ≤ 1 then ("Start of Slides", r.2, [])
  else if b.nav_ok then ("< Prev Slide", r.2, [NavCall.retreat])
  else ("Key: Left", r.2, if b.has_pyautogui then [NavCall.keyLeft] else [])

/-- A concrete PINCH frame used by witnesses: thumb and index touching,
index raised, hand-size distance 106. -/
def fA : GeometryFeatures :=
  { pinch_dist := 0, hand_size := 106, index_x := 0,
    index_up := true, middle_up := false, ring_up := false, pinky_up := false }

/-- A degenerate but well-typed PINCH frame whose hand-size distance is
exactly 0 (wrist and middle-finger knuckle landmarks coincide, so
math.hypot returns 0.0). -/
def fZero : GeometryFeatures :=
  { pinch_dist := 0, hand_size := 0, index_x := 0,
    index_up := true, middle_up := false, ring_up := false, pinky_up := false }

/-- A concrete PINCH frame with hand-size distance 100. -/
def fB : GeometryFeatures :=
  { pinch_dist := 0, hand_size := 100, index_x := 0,
    index_up := true, middle_up := false, ring_up := false, pinky_up := false }

/-- A concrete PINCH frame with hand-size distance 103, within the five
percent dead zone of a 100 baseline. -/
def fC : GeometryFeatures :=
  { pinch_dist := 0, hand_size := 103, index_x := 0,
    index_up := true, middle_up := false, ring_up := false, pinky_up := false }

/-- A backend with slides left, working navigation and pyautogui present. -/
def bOK : Backend :=
  { slide_count := 5, current_index := 1, nav_ok := true, has_pyautogui := true }

/-- A backend already at the last of its five slides. -/
def bEnd : Backend :=
  { slide_count := 5, current_index := 5, nav_ok := true, has_pyautogui := true }

/-- A backend at the first slide. -/
def bStart : Backend :=
  { slide_count := 5, current_index := 1, nav_ok := true, has_pyautogui := true }

/-- A backend in the middle of its slides with working navigation. -/
def bMid : Backend :=
  { slide_count := 5, current_index := 3, nav_ok := true, has_pyautogui := true }

/-- A backend in the middle of its slides whose COM navigation path fails. -/
def bMidFail : Backend :=
  { slide_count := 5, current_index := 3, nav_ok := false, has_pyautogui := true }

/-- C1: the classifier agrees pointwise with the ordered decision list of
the specification: count of up-fingers 0 gives FIST, else pinch distance
below 40 gives PINCH, else at most two up-fingers with index up gives
POINTER, else NEUTRAL. -/
theorem C1_classifier (f : GeometryFeatures) : classify f = classifySpec f := by
  have h : [f.index_up, f.middle_up, f.ring_up, f.pinky_up].count true
      = fingers_count f := by
    cases hi : f.index_up <;> cases hm : f.middle_up <;>
      cases hr : f.ring_up <;> cases hp : f.pinky_up <;>
      simp [fingers_count, hi, hm, hr, hp, List.count]
  simp only [classifySpec, h, classify]

lemma can_trigger_true_iff (now : ℚ) (st : PPTState) :
    (can_trigger now st).1 = true ↔ SWIPE_COOLDOWN < now - st.last_slide_time := by
  unfold can_trigger
  split_ifs with h <;> simp [h]

lemma can_trigger_of_elapsed (now : ℚ) (st : PPTState)
    (h : SWIPE_COOLDOWN < now - st.last_slide_time) :
    can_trigger now st = (true, { last_slide_time := now }) := by
  unfold can_trigger
  rw [if_pos h]

/-- C3: a trigger attempt is permitted iff the elapsed time since
last_slide_time strictly exceeds the 1.5 second cooldown; two permitted
attempts are separated by at least the cooldown; and two qualifying
swipes 0.5 seconds apart yield "Next Slide >" then "Cooldown" while the
same two swipes 2.0 seconds apart both yield "Next Slide >". -/
theorem C3_debounce :
    (∀ (now : ℚ) (st : PPTState),
        (can_trigger now st).1 = true ↔ SWIPE_COOLDOWN < now - st.last_slide_time)
    ∧ (∀ (t₁ t₂ : ℚ) (st : PPTState),
        (can_trigger t₁ st).1 = true →
        (can_trigger t₂ (can_trigger t₁ st).2).1 = true →
        SWIPE_COOLDOWN ≤ t₂ - t₁)
    ∧ (∀ (t : ℚ) (st : PPTState) (b : Backend),
        SWIPE_COOLDOWN < t - st.last_slide_time →
        b.current_index < b.slide_count → b.nav_ok = true →
        (next_slide t b st).1 = "Next Slide >"
        ∧ (next_slide (t + 1/2) b (next_slide t b st).2.1).1 = "Cooldown"
        ∧ (next_slide (t + 2) b (next_slide t b st).2.1).1 = "Next Slide >") := by
  refine ⟨can_trigger_true_iff, ?_, ?_⟩
  · intro t₁ t₂ st h1 h2
    have e1 : can_trigger t₁ st = (true, { last_slide_time := t₁ }) :=
      can_trigger_of_elapsed t₁ st ((can_trigger_true_iff t₁ st).mp h1)
    rw [e1] at h2
    have h3 := (can_trigger_true_iff t₂ { last_slide_time := t₁ }).mp h2
    exact le_of_lt h3
  · intro t st b ht hb hn
    have hnotend : ¬ (b.slide_count ≤ b.current_index ∧ 0 < b.slide_count) := by
      rintro ⟨h1, _⟩
      exact absurd hb (not_lt.mpr h1)
    have e1 : next_slide t b st
        = ("Next Slide >", { last_slide_time := t }, [NavCall.advance]) := by
      unfold next_slide
      rw [can_trigger_of_elapsed t st ht]
      simp [hnotend, hn]
    refine ⟨by rw [e1], ?_, ?_⟩
    · rw [e1]
      have hcool : ¬ SWIPE_COOLDOWN < ((2 : ℚ))⁻¹ := by norm_num [SWIPE_COOLDOWN]
      unfold next_slide can_trigger
      simp [hcool]
    · rw [e1]
      have h2 : SWIPE_COOLDOWN
          < t + 2 - ({ last_slide_time := t } : PPTState).last_slide_time := by
        simp only [add_sub_cancel_left]
        norm_num [SWIPE_COOLDOWN]
      unfold next_slide
      rw [can_trigger_of_elapsed _ _ h2]
      simp [hnotend, hn]

/-- C3 witness: concrete instances of the three parts of C3_debounce. -/
theorem C3_witness :
    ((can_trigger 2 initPPT).1 = true ↔ SWIPE_COOLDOWN < 2 - initPPT.last_slide_time)
    ∧ SWIPE_COOLDOWN ≤ (4 : ℚ) - 2
    ∧ ((next_slide 2 bOK initPPT).1 = "Next Slide >"
        ∧ (next_slide (2 + 1/2) bOK (next_slide 2 bOK initPPT).2.1).1 = "Cooldown"
        ∧ (next_slide (2 + 2) bOK (next_slide 2 bOK initPPT).2.1).1 = "Next Slide >") :=
  ⟨C3_debounce.1 2 initPPT,
    C3_debounce.2.1 2 4 initPPT
      (by norm_num [can_trigger, initPPT, SWIPE_COOLDOWN])
      (by norm_num [can_trigger, initPPT, SWIPE_COOLDOWN]),
    C3_debounce.2.2 2 initPPT bOK
      (by norm_num [initPPT, SWIPE_COOLDOWN]) (by norm_num [bOK]) rfl⟩

/-- C4: when the cooldown permits a next trigger but the backend reports
current index at or past a positive total, the outcome is "End of
Slides", no navigation call is issued, and last_slide_time has still
been consumed (updated to now). -/
theorem C4_end_of_slides (now : ℚ) (st : PPTState) (b : Backend)
    (ht : SWIPE_COOLDOWN < now - st.last_slide_time)
    (hcur : b.slide_count ≤ b.current_index) (htot : 0 < b.slide_count) :
    next_slide now b st = ("End of Slides", { last_slide_time := now }, []) := by
  unfold next_slide
  rw [can_trigger_of_elapsed now st ht]
  simp [hcur, htot]

/-- C4 witness: at slide 5 of 5, a qualifying swipe at time 2 from the
initial state yields "End of Slides", no calls, and consumes the window. -/
theorem C4_witness :
    SWIPE_COOLDOWN < 2 - initPPT.last_slide_time
    ∧ bEnd.slide_count ≤ bEnd.current_index
    ∧ 0 < bEnd.slide_count
    ∧ next_slide 2 bEnd initPPT = ("End of Slides", { last_slide_time := 2 }, []) :=
  ⟨by norm_num [initPPT, SWIPE_COOLDOWN], by norm_num [bEnd], by norm_num [bEnd],
    C4_end_of_slides 2 initPPT bEnd
      (by norm_num [initPPT, SWIPE_COOLDOWN]) (by norm_num [bEnd]) (by norm_num [bEnd])⟩

/-- C8: when the cooldown permits a prev trigger: at index at most 1 the
outcome is "Start of Slides" with no retreat call; past index 1 with a
working backend the retreat call is issued with outcome "< Prev Slide";
past index 1 with a failing backend the outcome is "Key: Left" with a
simulated left-arrow key press exactly when pyautogui is available. -/
theorem C8_prev_outcomes (now : ℚ) (st : PPTState) (b : Backend)
    (ht : SWIPE_COOLDOWN < now - st.last_slide_time) :
    (b.current_index ≤ 1 →
      prev_slide now b st = ("Start of Slides", { last_slide_time := now }, []))
    ∧ (1 < b.current_index → b.nav_ok = true →
      prev_slide now b st
        = ("< Prev Slide", { last_slide_time := now }, [NavCall.retreat]))
    ∧ (1 < b.current_index → b.nav_ok = false →
      prev_slide now b st
        = ("Key: Left", { last_slide_time := now },
            if b.has_pyautogui then [NavCall.keyLeft] else [])) := by
  unfold prev_slide
  rw [can_trigger_of_elapsed now st ht]
  refine ⟨fun h1 => by simp [h1], fun h1 h2 => by simp [not_le.mpr h1, h2],
    fun h1 h2 => by simp [not_le.mpr h1, h2]⟩

/-- C8 witness: the three outcomes at concrete backends. -/
theorem C8_witness :
    prev_slide 2 bStart initPPT = ("Start of Slides", { last_slide_time := 2 }, [])
    ∧ prev_slide 2 bMid initPPT
        = ("< Prev Slide", { last_slide_time := 2 }, [NavCall.retreat])
    ∧ prev_slide 2 bMidFail initPPT
        = ("Key: Left", { last_slide_time := 2 }, [NavCall.keyLeft]) := by
  have h0 : SWIPE_COOLDOWN < 2 - initPPT.last_slide_time := by
    norm_num [initPPT, SWIPE_COOLDOWN]
  refine ⟨(C8_prev_outcomes 2 initPPT bStart h0).1 (by norm_num [bStart]), ?_, ?_⟩
  · exact (C8_prev_outcomes 2 initPPT bMid h0).2.1 (by norm_num [bMid]) rfl
  · have h3 := (C8_prev_outcomes 2 initPPT bMidFail h0).2.2 (by norm_num [bMidFail]) rfl
    simpa [bMidFail] using h3

/-- C10: from the initial controller state (last_slide_time = 0) the
first trigger attempt at any wall-clock time greater than the cooldown
is permitted and never yields "Cooldown", for next and prev alike. -/
theorem C10_first_trigger (t : ℚ) (ht : SWIPE_COOLDOWN < t) :
    (can_trigger t initPPT).1 = true
    ∧ ∀ b : Backend,
        (next_slide t b initPPT).1 ≠ "Cooldown"
        ∧ (prev_slide t b initPPT).1 ≠ "Cooldown" := by
  have h0 : SWIPE_COOLDOWN < t - initPPT.last_slide_time := by
    simpa [initPPT] using ht
  refine ⟨(can_trigger_true_iff t initPPT).mpr h0, ?_⟩
  intro b
  constructor
  · unfold next_slide
    rw [can_trigger_of_elapsed t initPPT h0]
    split_ifs <;> simp
  · unfold prev_slide
    rw [can_trigger_of_elapsed t initPPT h0]
    split_ifs <;> simp

lemma trackStep_some_excl (st st' : TrackerState) (f : GeometryFeatures) (i : Option Intent)
    (h : trackStep st (some f) = some (st', i)) :
    st'.zoom_base = Option.none ∨ st'.swipe_anchor = Option.none := by
  rcases hc : classify f with _ | _ | _ | _ <;>
    simp only [trackStep, hc] at h
  · obtain ⟨h1, h2⟩ := h
    simp
  · rcases hz : st.zoom_base with _ | b <;> simp only [hz] at h
    · obtain ⟨h1, h2⟩ := h
      simp
    · split_ifs at h <;>
        first
        | exact Option.noConfusion h
        | (obtain ⟨h1, h2⟩ := h
           simp)
  · rcases ha : st.swipe_anchor with _ | a <;> simp only [ha] at h
    · obtain ⟨h1, h2⟩ := h
      simp
    · split_ifs at h <;>
        first
        | exact Option.noConfusion h
        | (obtain ⟨h1, h2⟩ := h
           simp)
  · obtain ⟨h1, h2⟩ := h
    simp

lemma trackStep_zoomIn_inv (st st' : TrackerState) (f : GeometryFeatures)
    (h : trackStep st (some f) = some (st', some Intent.zoomIn)) :
    st' = { zoom_base := some (f.hand_size * (99/100)), swipe_anchor := Option.none } := by
  rcases hc : classify f with _ | _ | _ | _ <;>
    simp only [trackStep, hc] at h
  · obtain ⟨h1, h2⟩ := h
  · rcases hz : st.zoom_base with _ | b <;> simp only [hz] at h
    · obtain ⟨h1, h2⟩ := h
    · split_ifs at h <;>
        first
        | exact Option.noConfusion h
        | (obtain ⟨h1, h2⟩ := h <;> rfl)
  · rcases ha : st.swipe_anchor with _ | a <;> simp only [ha] at h
    · obtain ⟨h1, h2⟩ := h
    · split_ifs at h <;>
        first
        | exact Option.noConfusion h
        | (obtain ⟨h1, h2⟩ := h)
  · obtain ⟨h1, h2⟩ := h

lemma trackStep_zoom_base_shape (st st' : TrackerState) (f : GeometryFeatures)
    (i : Option Intent) (h : trackStep st (some f) = some (st', i))
    (b' : ℚ) (hb' : st'.zoom_base = some b') :
    b' = f.hand_size ∨ b' = f.hand_size * (99/100) ∨ b' = f.hand_size * (101/100)
    ∨ st.zoom_base = some b' := by
  rcases hc : classify f with _ | _ | _ | _ <;>
    simp only [trackStep, hc] at h
  · obtain ⟨h1, h2⟩ := h
    exact Option.noConfusion hb'
  · rcases hz : st.zoom_base with _ | b <;> simp only [hz] at h
    · obtain ⟨h1, h2⟩ := h
      simp only [Option.some.injEq] at hb'
      exact Or.inl hb'.symm
    · split_ifs at h <;>
        first
        | exact Option.noConfusion h
        | (obtain ⟨h1, h2⟩ := h
           simp only [Option.some.injEq] at hb'
           first
           | exact Or.inr (Or.inl hb'.symm)
           | exact Or.inr (Or.inr (Or.inl hb'.symm))
           | exact Or.inr (Or.inr (Or.inr (by simp only [hz, hb']))))
  · rcases ha : st.swipe_anchor with _ | a <;> simp only [ha] at h
    · obtain ⟨h1, h2⟩ := h
      exact Option.noConfusion hb'
    · split_ifs at h <;>
        first
        | exact Option.noConfusion h
        | (obtain ⟨h1, h2⟩ := h
           exact Option.noConfusion hb')
  · obtain ⟨h1, h2⟩ := h
    exact Option.noConfusion hb'

lemma trackStep_ne_none (st : TrackerState) (f : GeometryFeatures)
    (hb : ∀ b, st.zoom_base = some b → b ≠ 0) :
    trackStep st (some f) ≠ Option.none := by
  rcases hc : classify f with _ | _ | _ | _ <;>
    simp only [trackStep, hc]
  · simp
  · rcases hz : st.zoom_base with _ | b <;> simp only [hz]
    · simp
    · have hb0 := hb b hz
      split_ifs with h0 <;> simp_all
  · rcases ha : st.swipe_anchor with _ | a <;> simp only [ha]
    · simp
    · split_ifs <;> simp
  · simp

lemma zoom_base_pos (st : TrackerState) (h : ReachableW posFrame st) :
    ∀ b, st.zoom_base = some b → 0 < b := by
  induction h with
  | init =>
      intro b hb
      exact absurd hb (by simp [initState])
  | stepNone st1 st1' i hr hstep ih =>
      simp only [trackStep] at hstep
      obtain ⟨h1, h2⟩ := hstep
      exact ih
  | stepSome st1 st1' f i hr hP hstep ih =>
      intro b' hb'
      rcases trackStep_zoom_base_shape st1 st1' f i hstep b' hb' with h1 | h1 | h1 | h1
      · rw [h1]
        exact hP
      · rw [h1]
        exact mul_pos hP (by norm_num)
      · rw [h1]
        exact mul_pos hP (by norm_num)
      · exact ih b' h1

/-- C2 counterexample: with zoom_base 100 and hand-size 106, a ZoomIn
fires and rebases zoom_base to 104.94; the next PINCH frame with the
same hand-size computes ratio 100/99, which does NOT exceed 1 + S, so no
further ZoomIn fires on that frame, contrary to the claim. -/
theorem C2_counterexample :
    trackStep { zoom_base := some 100, swipe_anchor := Option.none } (some fA)
      = some ({ zoom_base := some (fA.hand_size * (99/100)), swipe_anchor := Option.none },
          some Intent.zoomIn)
    ∧ trackStep { zoom_base := some (fA.hand_size * (99/100)), swipe_anchor := Option.none }
        (some fA)
      = some ({ zoom_base := some (fA.hand_size * (99/100)), swipe_anchor := Option.none },
          Option.none)
    ∧ ¬ (1 + ZOOM_SENSITIVITY < fA.hand_size / (fA.hand_size * (99/100))) := by
  refine ⟨?_, ?_, ?_⟩ <;>
    norm_num [trackStep, classify, fA, fingers_count, ZOOM_SENSITIVITY]

/-- C2 amended: whenever a ZoomIn intent is emitted on a frame with
positive hand-size, zoom_base is rebased to exactly 0.99 times the
current hand-size; a subsequent PINCH frame with unchanged hand-size
computes ratio 1/0.99, which lies inside the dead zone, so no zoom
intent at all is emitted on that subsequent frame and zoom_base is left
unchanged. -/
theorem C2_zoomIn_rebase (st st' : TrackerState) (f f' : GeometryFeatures)
    (hpos : 0 < f.hand_size)
    (hsame : f'.hand_size = f.hand_size)
    (hc' : classify f' = GestureCategory.PINCH)
    (hstep : trackStep st (some f) = some (st', some Intent.zoomIn)) :
    st'.zoom_base = some (f.hand_size * (99/100))
    ∧ trackStep st' (some f') = some (st', Option.none) := by
  have hst' := trackStep_zoomIn_inv st st' f hstep
  subst hst'
  refine ⟨rfl, ?_⟩
  have hne : f.hand_size * (99/100) ≠ 0 :=
    mul_ne_zero (ne_of_gt hpos) (by norm_num)
  have hr : f'.hand_size / (f.hand_size * (99/100)) = 100/99 := by
    rw [hsame, div_mul_eq_div_div, div_self (ne_of_gt hpos)]
    norm_num
  simp only [trackStep, hc']
  rw [if_neg hne, hr]
  norm_num [ZOOM_SENSITIVITY]

/-- C2 witness: the amended statement at zoom_base 100 and hand-size 106. -/
theorem C2_witness :
    (0 : ℚ) < fA.hand_size
    ∧ classify fA = GestureCategory.PINCH
    ∧ trackStep { zoom_base := some 100, swipe_anchor := Option.none } (some fA)
        = some ({ zoom_base := some (fA.hand_size * (99/100)), swipe_anchor := Option.none },
            some Intent.zoomIn)
    ∧ (({ zoom_base := some (fA.hand_size * (99/100)), swipe_anchor := Option.none }
          : TrackerState).zoom_base = some (fA.hand_size * (99/100))
        ∧ trackStep { zoom_base := some (fA.hand_size * (99/100)), swipe_anchor := Option.none }
            (some fA)
          = some ({ zoom_base := some (fA.hand_size * (99/100)), swipe_anchor := Option.none },
              Option.none)) :=
  ⟨by norm_num [fA], by norm_num [classify, fA, fingers_count],
    by norm_num [trackStep, classify, fA, fingers_count, ZOOM_SENSITIVITY],
    C2_zoomIn_rebase { zoom_base := some 100, swipe_anchor := Option.none }
      { zoom_base := some (fA.hand_size * (99/100)), swipe_anchor := Option.none }
      fA fA (by norm_num [fA]) rfl
      (by norm_num [classify, fA, fingers_count])
      (by norm_num [trackStep, classify, fA, fingers_count, ZOOM_SENSITIVITY])⟩

/-- C5 counterexample: starting a no-hand frame with zoom_base set, the
step leaves the state untouched, so zoom_base is NOT cleared, contrary
to the claim that both reference fields are cleared on such a frame. -/
theorem C5_counterexample :
    trackStep { zoom_base := some 5, swipe_anchor := Option.none } Option.none
      = some ({ zoom_base := some 5, swipe_anchor := Option.none }, Option.none)
    ∧ ({ zoom_base := some 5, swipe_anchor := Option.none } : TrackerState).zoom_base
        ≠ Option.none :=
  ⟨rfl, by simp⟩

/-- C5 amended: on a frame in which no hand is detected, no command is
issued and the step is not an error, but zoom_base and swipe_anchor are
left unchanged rather than cleared. -/
theorem C5_no_hand (st : TrackerState) :
    trackStep st Option.none = some (st, Option.none) := rfl

/-- C6: every state reachable from the initial state by any sequence of
frames (no-hand frames included) has at most one of zoom_base and
swipe_anchor set. -/
theorem C6_mutual_exclusion (st : TrackerState) (h : Reachable st) :
    st.zoom_base = Option.none ∨ st.swipe_anchor = Option.none := by
  induction h with
  | init => simp [initState]
  | stepNone st1 st1' i hr hstep ih =>
      simp only [trackStep] at hstep
      obtain ⟨h1, h2⟩ := hstep
      exact ih
  | stepSome st1 st1' f i hr hP hstep ih =>
      exact trackStep_some_excl st1 st1' f i hstep

/-- C6 witness: the invariant at the (reachable) initial state. -/
theorem C6_witness :
    initState.zoom_base = Option.none ∨ initState.swipe_anchor = Option.none :=
  C6_mutual_exclusion initState ReachableW.init

/-- C7: a first PINCH frame with no baseline records its hand-size in
zoom_base and emits nothing; a second PINCH frame whose hand-size ratio
against that baseline lies in the dead zone emits nothing and leaves
zoom_base unchanged. -/
theorem C7_dead_zone (st : TrackerState) (f f' : GeometryFeatures)
    (hz : st.zoom_base = Option.none)
    (hc : classify f = GestureCategory.PINCH)
    (hc' : classify f' = GestureCategory.PINCH)
    (hlo : 1 - ZOOM_SENSITIVITY ≤ f'.hand_size / f.hand_size)
    (hhi : f'.hand_size / f.hand_size ≤ 1 + ZOOM_SENSITIVITY) :
    trackStep st (some f)
      = some ({ zoom_base := some f.hand_size, swipe_anchor := Option.none }, Option.none)
    ∧ trackStep { zoom_base := some f.hand_size, swipe_anchor := Option.none } (some f')
      = some ({ zoom_base := some f.hand_size, swipe_anchor := Option.none }, Option.none) := by
  have hb0 : f.hand_size ≠ 0 := by
    intro h0
    rw [h0, div_zero] at hlo
    norm_num [ZOOM_SENSITIVITY] at hlo
  constructor
  · simp only [trackStep, hc, hz]
  · simp only [trackStep, hc']
    rw [if_neg hb0, if_neg (not_lt.mpr hhi), if_neg (not_lt.mpr hlo)]

/-- C7 witness: baseline 100 followed by hand-size 103 stays in the dead
zone. -/
theorem C7_witness :
    initState.zoom_base = Option.none
    ∧ classify fB = GestureCategory.PINCH
    ∧ classify fC = GestureCategory.PINCH
    ∧ 1 - ZOOM_SENSITIVITY ≤ fC.hand_size / fB.hand_size
    ∧ fC.hand_size / fB.hand_size ≤ 1 + ZOOM_SENSITIVITY
    ∧ (trackStep initState (some fB)
        = some ({ zoom_base := some fB.hand_size, swipe_anchor := Option.none }, Option.none)
      ∧ trackStep { zoom_base := some fB.hand_size, swipe_anchor := Option.none } (some fC)
        = some ({ zoom_base := some fB.hand_size, swipe_anchor := Option.none },
            Option.none)) :=
  ⟨rfl, by norm_num [classify, fB, fingers_count],
    by norm_num [classify, fC, fingers_count],
    by norm_num [fB, fC, ZOOM_SENSITIVITY],
    by norm_num [fB, fC, ZOOM_SENSITIVITY],
    C7_dead_zone initState fB fC rfl
      (by norm_num [classify, fB, fingers_count])
      (by norm_num [classify, fC, fingers_count])
      (by norm_num [fB, fC, ZOOM_SENSITIVITY])
      (by norm_num [fB, fC, ZOOM_SENSITIVITY])⟩

/-- C9 counterexample: a PINCH frame whose wrist and middle-knuckle
landmarks coincide measures hand-size 0, so the reachable state with
zoom_base = 0 exists and the following PINCH frame divides by zero
(modelled as Option.none), refuting the claim that zoom_base is nonzero
in every reachable state where it is set. -/
theorem C9_counterexample :
    Reachable { zoom_base := some 0, swipe_anchor := Option.none }
    ∧ trackStep { zoom_base := some 0, swipe_anchor := Option.none } (some fZero)
        = Option.none
    ∧ ¬ (∀ st : TrackerState, Reachable st →
          ∀ b : ℚ, st.zoom_base = some b → b ≠ 0) := by
  have hreach : Reachable { zoom_base := some 0, swipe_anchor := Option.none } := by
    refine ReachableW.stepSome initState _ fZero Option.none ReachableW.init trivial ?_
    norm_num [trackStep, classify, fZero, fingers_count, initState]
  refine ⟨hreach, ?_, ?_⟩
  · norm_num [trackStep, classify, fZero, fingers_count]
  · intro hclaim
    exact hclaim _ hreach 0 rfl rfl

/-- C9 amended: along traces in which every detected frame has positive
hand-size distance (as every nondegenerate landmark set yields),
zoom_base is positive whenever set, and the step function never reaches
the division by zero. -/
theorem C9_zoom_base_nonzero (st : TrackerState) (h : ReachableW posFrame st) :
    (∀ b, st.zoom_base = some b → 0 < b)
    ∧ ∀ f : GeometryFeatures, trackStep st (some f) ≠ Option.none := by
  refine ⟨zoom_base_pos st h, fun f => trackStep_ne_none st f ?_⟩
  intro b hb
  exact ne_of_gt (zoom_base_pos st h b hb)

/-- C9 witness: the amended statement at the (reachable) initial state. -/
theorem C9_witness :
    (∀ b, initState.zoom_base = some b → 0 < b)
    ∧ ∀ f : GeometryFeatures, trackStep initState (some f) ≠ Option.none :=
  C9_zoom_base_nonzero initState ReachableW.init

/-- C10 witness: at time 2 the first attempt is permitted. -/
theorem C10_witness :
    SWIPE_COOLDOWN < (2 : ℚ)
    ∧ ((can_trigger 2 initPPT).1 = true
        ∧ ∀ b : Backend,
            (next_slide 2 b initPPT).1 ≠ "Cooldown"
            ∧ (prev_slide 2 b initPPT).1 ≠ "Cooldown") :=
  ⟨by norm_num [SWIPE_COOLDOWN],
    C10_first_trigger 2 (by norm_num [SWIPE_COOLDOWN])⟩

end GesturePPT
